import Mathlib

/-!
Shallow embedding of the gear-dapps/oracle off-chain feeder (TypeScript).

Source files embedded here:
  src/producer/src/index.ts  -- local-random variant: startup queue
                                reconciliation, live event decoding,
                                update submission
  src/unnamed/part_000       -- external-beacon variant: timer-driven
                                feeder (its utils module with
                                fetchRandomValue is not in the repo
                                snapshot and is modelled from the spec)

Bytes are modelled as Nat values (< 256 where relevant).  JavaScript
numbers that carry integer data are modelled as Nat, together with an
explicit arithmetic model of the IEEE-754 double rounding that parseInt
performs on large decimal strings; NaN (from parseInt on a non-numeric
string) is modelled as the none case of Option Nat.
-/

/-- Rounding helper for the double model: round n to the nearest multiple
of ulp, ties going to the even multiple (the quotient's parity decides a
tie).  This is exactly how a decimal integer string larger than 2^53 is
converted to an IEEE-754 double. -/
def roundNearestEven (n ulp : Nat) : Nat :=
  let q := n / ulp
  let r := n % ulp
  if 2 * r < ulp then q * ulp
  else if ulp < 2 * r then (q + 1) * ulp
  else if q % 2 = 0 then q * ulp else (q + 1) * ulp

/-- Fuel-driven base-2 logarithm, written with structural recursion so
that the kernel can evaluate it on concrete inputs.  For 0 < n < 2 ^ fuel
it returns the position of the highest set bit of n. -/
def log2fuel : Nat → Nat → Nat
  | 0, _ => 0
  | fuel + 1, n => if n < 2 then 0 else log2fuel fuel (n / 2) + 1

/-- Value of the JavaScript expression parseInt(v.toString()) for a
non-negative BigInt v (src/producer/src/index.ts line 141): the decimal
string is parsed into an IEEE-754 double, so values of at most
2^53 = 9007199254740992 come back exactly and larger values are rounded
to 53 significant bits, ties to even. -/
def doubleOfNat (n : Nat) : Nat :=
  if n ≤ 9007199254740992 then n
  else roundNearestEven n (2 ^ (log2fuel 70 n - 52))

/-- Node's Buffer.readBigUInt64LE at offset 0 (src/producer/src/index.ts
line 141): reads the first eight bytes little endian; a buffer shorter
than eight bytes raises ERR_OUT_OF_RANGE, modelled as none. -/
def readBigUInt64LE : List Nat → Option Nat
  | b0 :: b1 :: b2 :: b3 :: b4 :: b5 :: b6 :: b7 :: _ =>
      some (b0 + b1 * 256 + b2 * 65536 + b3 * 16777216 + b4 * 4294967296 +
            b5 * 1099511627776 + b6 * 281474976710656 +
            b7 * 72057594037927936)
  | _ => none

/-- Outcome of running the body of the UserMessageSent handler on one raw
payload: ignored (discriminant other than 0 — not a request-creation
event), fault (an exception escapes the handler uncaught: the handler has
no try/catch), or a decoded request. -/
inductive HandlerOutcome where
  | ignored
  | fault
  | request (id : Nat) (caller : List Nat)
deriving DecidableEq

/-- The live-request decoding inside the subscribeToGearEvent handler
(src/producer/src/index.ts lines 134-150), after the source-address
filter.  Byte 0 is the discriminant; when it equals 0 the handler slices
bytes 1..16, reads the first eight of them as a little-endian 64-bit id
(readBigUInt64LE throws when fewer than eight bytes are available —
fault), converts the id through parseInt (double rounding, doubleOfNat),
and takes bytes 17..end as the caller, element by element.  An empty
payload also faults: payloadType[0] is undefined and undefined.toString()
throws a TypeError. -/
def decodeNewRequest : List Nat → HandlerOutcome
  | [] => HandlerOutcome.fault
  | b0 :: rest =>
    if b0 = 0 then
      match readBigUInt64LE (rest.take 16) with
      | none => HandlerOutcome.fault
      | some v => HandlerOutcome.request (doubleOfNat v) (rest.drop 16)
    else HandlerOutcome.ignored

/-- Little-endian byte encoding of the low 64 bits of n, as the event
producer lays the id out in the payload (low byte first). -/
def u64LE (n : Nat) : List Nat :=
  [n % 256, n / 256 % 256, n / 65536 % 256, n / 16777216 % 256,
   n / 4294967296 % 256, n / 1099511627776 % 256,
   n / 281474976710656 % 256, n / 72057594037927936 % 256]

/-- The 16-byte id field of a well-formed new-request payload: the 64-bit
id little endian in the low eight bytes, zero padding in the high eight. -/
def idField16 (n : Nat) : List Nat :=
  u64LE n ++ [0, 0, 0, 0, 0, 0, 0, 0]

/-- The id a handler outcome carries, when it carries one. -/
def idOf : HandlerOutcome → Option Nat
  | HandlerOutcome.request i _ => some i
  | _ => none

/-- The caller byte sequence a handler outcome carries, when it carries
one. -/
def callerOf : HandlerOutcome → Option (List Nat)
  | HandlerOutcome.request _ c => some c
  | _ => none

/-- Decode a payload and re-encode the extracted id as eight little-endian
bytes — the round-trip probed by the spec's id round-trip property. -/
def decodeThenReencodeId (payload : List Nat) : Option (List Nat) :=
  Option.map u64LE (idOf (decodeNewRequest payload))

/-- One queue entry as the Queue Snapshot Reader produces it
(src/producer/src/index.ts lines 35-44).  The id field is the result of
JavaScript parseInt on the id string: none models NaN. -/
structure OracleQueueItem where
  id : Option Nat
  caller : String
deriving DecidableEq

/-- Argument of one Update Submitter invocation
(src/producer/src/index.ts, type OracleUpdateValue): the request id (an
ordinary JS number, so possibly NaN) and the produced value. -/
structure OracleUpdateValue where
  id : Option Nat
  value : Nat
deriving DecidableEq

/-- JavaScript parseInt on the decimal strings this program feeds it
(src/producer/src/index.ts line 40): take the longest leading run of
decimal digits; an empty run gives NaN (none), otherwise the run's value.
Sign, whitespace and radix-prefix handling are irrelevant to the strings
produced by toHuman here and are not modelled.  parseInt never throws. -/
def parseInt (s : String) : Option Nat :=
  let ds := s.toList.takeWhile (fun c => c.isDigit)
  if ds.isEmpty then none
  else some (ds.foldl (fun a c => a * 10 + (c.toNat - 48)) 0)

/-- The Queue Snapshot Reader's mapping over the human-readable state
response (src/producer/src/index.ts lines 35-44): each [id, caller] pair
becomes one item, its id run through parseInt.  The function is total:
no entry can make it fail or be skipped. -/
def getOracleRequestsQueue (requestsQueue : List (String × String)) :
    List OracleQueueItem :=
  requestsQueue.map fun p => { id := parseInt p.1, caller := p.2 }

/-- The bound the producer passes to getRandomNumber
(src/producer/src/index.ts lines 113 and 152). -/
def oracleBound : Nat := 9999999999999

/-- getRandomNumber (src/producer/src/index.ts lines 95-96):
Math.floor(Math.random() * max).  Math.random() yields k / 2^53 for some
k < 2^53 (the generator fills 53 bits), so the floor of the product is
k * max / 2^53 in exact arithmetic; k is made an explicit argument, the
random source's output for this call.  For max = 9999999999999 the
floating-point product stays below max for every k < 2^53, so the exact
model and the float computation agree on the bounds proved here. -/
def getRandomNumber (k max : Nat) : Nat :=
  k * max / 9007199254740992

/-- External calls the Update Submitter makes, in source order
(src/producer/src/index.ts lines 49-93): load the wasm metadata, encode
the Action payload, query gas estimation, and broadcast (message.send
plus signAndSend). -/
inductive Step where
  | loadMeta
  | encodePayload
  | calcGas
  | broadcast
deriving DecidableEq

/-- Which of the Update Submitter's steps fail in one run: metadata load,
payload encoding, gas estimation, signing/broadcast, and whether the
broadcast acknowledgment callback reports an error (event.isError, which
makes the callback throw). -/
structure SubmitEnv where
  metaFails : Bool
  encodeFails : Bool
  gasFails : Bool
  sendFails : Bool
  ackIsError : Bool
deriving DecidableEq

/-- Does any step of the submission fail in this environment? -/
def anyFailure (env : SubmitEnv) : Bool :=
  env.metaFails || env.encodeFails || env.gasFails || env.sendFails ||
    env.ackIsError

/-- The failure line updateOracleValue prints from its catch block
(src/producer/src/index.ts line 91). -/
def failLog : String := "[-] Failed to send tx"

/-- Rendering of a possibly-NaN id in a template literal. -/
def showOptId : Option Nat → String
  | some n => toString n
  | none => "NaN"

/-- The success line the acknowledgment callback prints
(src/producer/src/index.ts line 88). -/
def successLog (item : OracleUpdateValue) : String :=
  "[+] UpdateValue(" ++ showOptId item.id ++ ", " ++ toString item.value ++ ")"

/-- The body of updateOracleValue's try block
(src/producer/src/index.ts lines 50-89), as the ordered trace of external
calls it performs plus its result: the first failing step raises (error),
stopping the sequence; otherwise the acknowledgment callback either
throws (event.isError) or logs the success line. -/
def tryBody (item : OracleUpdateValue) (env : SubmitEnv) :
    List Step × Except Unit String :=
  if env.metaFails then ([Step.loadMeta], Except.error ())
  else if env.encodeFails then
    ([Step.loadMeta, Step.encodePayload], Except.error ())
  else if env.gasFails then
    ([Step.loadMeta, Step.encodePayload, Step.calcGas], Except.error ())
  else if env.sendFails then
    ([Step.loadMeta, Step.encodePayload, Step.calcGas, Step.broadcast],
      Except.error ())
  else if env.ackIsError then
    ([Step.loadMeta, Step.encodePayload, Step.calcGas, Step.broadcast],
      Except.error ())
  else
    ([Step.loadMeta, Step.encodePayload, Step.calcGas, Step.broadcast],
      Except.ok (successLog item))

/-- updateOracleValue (src/producer/src/index.ts lines 49-93): the whole
try body sits inside one try/catch, so every raised error is converted
into the logged failure line and the function returns normally — its
result type carries no error case at all. -/
def updateOracleValue (item : OracleUpdateValue) (env : SubmitEnv) :
    List Step × List String :=
  match tryBody item env with
  | (tr, Except.ok s) => (tr, [s])
  | (tr, Except.error _) => (tr, [failLog])

/-- A batch of independent submissions as the orchestrator issues them
(Promise.all over the mapped items, src/producer/src/index.ts lines
109-120): each job runs updateOracleValue on its own item and
environment, unaffected by the others' outcomes. -/
def processAll (jobs : List (OracleUpdateValue × SubmitEnv)) :
    List (List Step × List String) :=
  jobs.map fun job => updateOracleValue job.1 job.2

/-- The reconciliation mapping in main (src/producer/src/index.ts lines
109-120), with the index of each Math.random() call made explicit: item
number i is submitted with its own id and with
getRandomNumber (ks i) 9999999999999. -/
def reconcileAux (ks : Nat → Nat) : Nat → List OracleQueueItem →
    List OracleUpdateValue
  | _, [] => []
  | i, item :: rest =>
      { id := item.id, value := getRandomNumber (ks i) oracleBound } ::
        reconcileAux ks (i + 1) rest

/-- Startup reconciliation: one Update Submitter argument per snapshot
item, in snapshot order. -/
def reconcile (ks : Nat → Nat) (items : List OracleQueueItem) :
    List OracleUpdateValue :=
  reconcileAux ks 0 items

/-- The structured randomness record of the beacon variant
(src/unnamed/part_000: random.randomness[0], random.randomness[1],
random.signature, random.prevSignature; its types module is not in the
repo snapshot). -/
structure RandomRec where
  randomness : List Nat × List Nat
  signature : String
  prevSignature : String
deriving DecidableEq

/-- What one timer tick of the beacon variant finds: whether the beacon
fetch fails, and the (round, randomness) pair it would deliver. -/
structure TickEnv where
  fetchFails : Bool
  round : Nat
  random : RandomRec
deriving DecidableEq

/-- Modelled from the spec: fetchRandomValue lives in the beacon
variant's utils module, which is absent from src/.  Per the spec it
fetches one (round, randomness-record) pair from the external HTTP
beacon and the fetch can fail; failure is a rejected promise, i.e. an
exception at the await site. -/
def fetchRandomValue (env : TickEnv) : Except Unit (Nat × RandomRec) :=
  if env.fetchFails then Except.error ()
  else Except.ok (env.round, env.random)

/-- Observable events of one timer tick of the beacon variant. -/
inductive TickEvent where
  | fetchAttempt
  | tickLog (round : Nat)
  | submission (round : Nat)
deriving DecidableEq

/-- One tick of the beacon variant's setInterval callback
(src/unnamed/part_000 lines 93-98): await fetchRandomValue, log the new
tick, submit.  The callback has no try/catch, so a failed fetch makes the
whole (async) callback reject: nothing is logged, no submission happens,
and the rejection escapes uncaught (error).  The submission itself
swallows its own errors, so a tick with a successful fetch always
completes. -/
def tickOnce (env : TickEnv) : List TickEvent × Except Unit Unit :=
  match fetchRandomValue env with
  | Except.error _ => ([TickEvent.fetchAttempt], Except.error ())
  | Except.ok data =>
      ([TickEvent.fetchAttempt, TickEvent.tickLog data.1,
        TickEvent.submission data.1], Except.ok ())

/-- The timer schedule: setInterval fires each tick independently of how
earlier callbacks ended (the schedule itself is never cancelled). -/
def runTicks (envs : List TickEnv) : List (List TickEvent × Except Unit Unit) :=
  envs.map tickOnce

/- ------------------------------------------------------------------ -/
/- Helper lemmas (shared between claims).                              -/
/- ------------------------------------------------------------------ -/

/-- doubleOfNat is the identity at or below 2^53. -/
theorem doubleOfNat_of_le {n : Nat} (h : n ≤ 9007199254740992) :
    doubleOfNat n = n := by
  unfold doubleOfNat
  rw [if_pos h]

/-- Reassembling the eight little-endian bytes of n recovers n whenever n
fits in 64 bits. -/
theorem le_bytes_reassemble {n : Nat} (h : n < 18446744073709551616) :
    n % 256 + n / 256 % 256 * 256 + n / 65536 % 256 * 65536 +
      n / 16777216 % 256 * 16777216 +
      n / 4294967296 % 256 * 4294967296 +
      n / 1099511627776 % 256 * 1099511627776 +
      n / 281474976710656 % 256 * 281474976710656 +
      n / 72057594037927936 % 256 * 72057594037927936 = n := by
  omega

/-- Decoding a well-formed new-request payload whose id does not exceed
2^53: the handler recovers the id exactly and passes the caller bytes
through unchanged. -/
theorem decode_wellformed (id : Nat) (caller : List Nat)
    (h : id ≤ 9007199254740992) :
    decodeNewRequest (0 :: (idField16 id ++ caller)) =
      HandlerOutcome.request id caller := by
  have hlen : (idField16 id).length = 16 := rfl
  have htake : (idField16 id ++ caller).take 16 = idField16 id := by
    rw [← hlen]
    exact List.take_left _ _
  have hdrop : (idField16 id ++ caller).drop 16 = caller := by
    rw [← hlen]
    exact List.drop_left _ _
  have hread : readBigUInt64LE (idField16 id) =
      some (id % 256 + id / 256 % 256 * 256 + id / 65536 % 256 * 65536 +
        id / 16777216 % 256 * 16777216 +
        id / 4294967296 % 256 * 4294967296 +
        id / 1099511627776 % 256 * 1099511627776 +
        id / 281474976710656 % 256 * 281474976710656 +
        id / 72057594037927936 % 256 * 72057594037927936) := rfl
  have hsum := le_bytes_reassemble (n := id) (by omega)
  rw [show decodeNewRequest (0 :: (idField16 id ++ caller)) =
        (match readBigUInt64LE ((idField16 id ++ caller).take 16) with
          | none => HandlerOutcome.fault
          | some v =>
              HandlerOutcome.request (doubleOfNat v)
                ((idField16 id ++ caller).drop 16)) from rfl]
  rw [htake, hdrop, hread, hsum]
  show HandlerOutcome.request (doubleOfNat id) caller =
    HandlerOutcome.request id caller
  rw [doubleOfNat_of_le h]

/-- The length of a reconciliation batch equals the snapshot length, at
any starting random index. -/
theorem reconcileAux_length (ks : Nat → Nat) (s : Nat)
    (items : List OracleQueueItem) :
    (reconcileAux ks s items).length = items.length := by
  induction items generalizing s with
  | nil => rfl
  | cons it rest ih => simp [reconcileAux, ih]

/-- Position i of a reconciliation batch carries the id of snapshot item
i, at any starting random index. -/
theorem reconcileAux_id (ks : Nat → Nat) (s : Nat)
    (items : List OracleQueueItem) (i : Nat) :
    ((reconcileAux ks s items)[i]?).map OracleUpdateValue.id =
      (items[i]?).map OracleQueueItem.id := by
  induction items generalizing s i with
  | nil => simp [reconcileAux]
  | cons it rest ih =>
      cases i with
      | zero => simp [reconcileAux]
      | succ j => simpa [reconcileAux] using ih (s + 1) j

/-- The sampled value is below the bound whenever the random source's
53-bit output is in range and the bound is positive. -/
theorem getRandomNumber_lt {k m : Nat} (hk : k < 9007199254740992)
    (hm : 0 < m) : getRandomNumber k m < m := by
  unfold getRandomNumber
  apply Nat.div_lt_of_lt_mul
  exact Nat.mul_lt_mul_of_pos_right hk hm

/-- Every invocation a reconciliation batch produces carries a value
below the bound, given an in-range random source. -/
theorem reconcileAux_value (ks : Nat → Nat)
    (hk : ∀ i, ks i < 9007199254740992) (s : Nat)
    (items : List OracleQueueItem) :
    ∀ inv ∈ reconcileAux ks s items, inv.value < oracleBound := by
  induction items generalizing s with
  | nil => intro inv h; simp [reconcileAux] at h
  | cons it rest ih =>
      intro inv h
      simp only [reconcileAux, List.mem_cons] at h
      rcases h with h | h
      · subst h
        exact getRandomNumber_lt (hk s) (by norm_num [oracleBound])
      · exact ih (s + 1) inv h

/- ------------------------------------------------------------------ -/
/- Claim theorems.                                                     -/
/- ------------------------------------------------------------------ -/

/-- C1: the claim says every discriminant-0 payload shorter than 17
bytes yields a malformed-event report, never a PendingRequest and never a
fault.  The code does neither: evaluated at the failing inputs, the
1-byte payload [0] makes readBigUInt64LE throw an uncaught RangeError
(fault), and the 10-byte payload of a zero byte followed by nine 1-bytes
quietly produces a request (id read from bytes 1..8, empty caller) with
no error report at all. -/
theorem c1_short_payload_behavior :
    decodeNewRequest [0] = HandlerOutcome.fault ∧
    decodeNewRequest (0 :: List.replicate 9 1) =
      HandlerOutcome.request 72340172838076672 [] := by
  exact ⟨rfl, by decide⟩

/-- C2 counterexample: the claim asserts the id round-trip for every
64-bit id, but for id = 2^53 + 1 = 9007199254740993 the decoder's
parseInt conversion rounds the id to 2^53, so re-encoding the extracted
id gives back different bytes than were decoded. -/
theorem c2_roundtrip_counterexample :
    decodeThenReencodeId
        (0 :: (idField16 9007199254740993 ++ List.replicate 32 7)) =
      some (u64LE 9007199254740992) ∧
    u64LE 9007199254740992 ≠ u64LE 9007199254740993 := by
  decide

/-- C2 (amended): for every valid new-request payload whose id is at most
2^53 (the ids the decoder's double conversion preserves exactly),
decoding and then re-encoding the extracted id reproduces the same
64-bit value, and the caller bytes pass through unchanged as a
sequence. -/
theorem c2_id_roundtrip (id : Nat) (caller : List Nat)
    (h : id ≤ 9007199254740992) :
    decodeThenReencodeId (0 :: (idField16 id ++ caller)) =
      some (u64LE id) ∧
    callerOf (decodeNewRequest (0 :: (idField16 id ++ caller))) =
      some caller := by
  have hd := decode_wellformed id caller h
  constructor
  · unfold decodeThenReencodeId
    rw [hd]
    rfl
  · rw [hd]
    rfl

/-- C2 witness: the round-trip theorem applied at id 42 with caller
bytes [1, 2, 3]. -/
theorem c2_id_roundtrip_witness :
    (42 ≤ 9007199254740992) ∧
    decodeThenReencodeId (0 :: (idField16 42 ++ [1, 2, 3])) =
      some (u64LE 42) ∧
    callerOf (decodeNewRequest (0 :: (idField16 42 ++ [1, 2, 3]))) =
      some [1, 2, 3] :=
  ⟨by norm_num, (c2_id_roundtrip 42 [1, 2, 3] (by norm_num)).1,
    (c2_id_roundtrip 42 [1, 2, 3] (by norm_num)).2⟩

/-- C3: every error raised at any step of the Update Submitter —
metadata load, encoding, gas estimation, signing/broadcast, or an
acknowledgment reporting an error — is caught by updateOracleValue's
top-level try/catch, the failure line is logged, and the function
returns normally; a batch of submissions therefore yields one outcome
per job, each job's outcome depending only on its own environment, so a
failed (or acknowledgment-errored) submission never prevents the next
unrelated submission from being attempted. -/
theorem c3_errors_swallowed (item : OracleUpdateValue) (env : SubmitEnv)
    (jobs : List (OracleUpdateValue × SubmitEnv)) :
    (anyFailure env = true → (updateOracleValue item env).2 = [failLog]) ∧
    (processAll jobs).length = jobs.length ∧
    (∀ i : Nat, (processAll jobs)[i]? =
      (jobs[i]?).map fun job => updateOracleValue job.1 job.2) := by
  refine ⟨?_, ?_, ?_⟩
  · intro h
    rcases env with ⟨m, e, g, s, a⟩
    simp only [anyFailure, Bool.or_eq_true] at h
    unfold updateOracleValue tryBody
    cases m <;> cases e <;> cases g <;> cases s <;> cases a <;> simp_all
  · simp [processAll]
  · intro i
    simp [processAll]

/-- C3 witness: an acknowledgment error is swallowed into the logged
failure line, and a two-job batch still yields two outcomes. -/
theorem c3_errors_swallowed_witness :
    anyFailure ⟨false, false, false, false, true⟩ = true ∧
    (updateOracleValue ⟨some 1, 2⟩ ⟨false, false, false, false, true⟩).2 =
      [failLog] ∧
    (processAll [(⟨some 1, 2⟩, ⟨false, false, false, false, true⟩),
        (⟨some 3, 4⟩, ⟨false, false, false, false, false⟩)]).length = 2 :=
  ⟨rfl,
    (c3_errors_swallowed ⟨some 1, 2⟩ ⟨false, false, false, false, true⟩
        []).1 rfl,
    (c3_errors_swallowed ⟨some 1, 2⟩ ⟨false, false, false, false, true⟩
        [(⟨some 1, 2⟩, ⟨false, false, false, false, true⟩),
          (⟨some 3, 4⟩, ⟨false, false, false, false, false⟩)]).2.1⟩

/-- C4: when the gas-estimation call fails, updateOracleValue logs the
failure line and never reaches the broadcast step; and whenever the
broadcast step appears in a submission's trace, the trace is exactly the
full ordered sequence, with gas estimation preceding the broadcast. -/
theorem c4_gas_failure_blocks_broadcast (item : OracleUpdateValue)
    (env : SubmitEnv) :
    (env.gasFails = true →
        Step.broadcast ∉ (updateOracleValue item env).1 ∧
        (updateOracleValue item env).2 = [failLog]) ∧
    (Step.broadcast ∈ (updateOracleValue item env).1 →
        (updateOracleValue item env).1 =
          [Step.loadMeta, Step.encodePayload, Step.calcGas,
            Step.broadcast]) := by
  rcases env with ⟨m, e, g, s, a⟩
  unfold updateOracleValue tryBody
  cases m <;> cases e <;> cases g <;> cases s <;> cases a <;> simp_all

/-- C4 witness: the theorem applied with a failing gas estimation (no
broadcast, failure logged) and with an all-success run (full ordered
trace). -/
theorem c4_gas_failure_blocks_broadcast_witness :
    (Step.broadcast ∉
        (updateOracleValue ⟨some 3, 4⟩
          ⟨false, false, true, false, false⟩).1 ∧
      (updateOracleValue ⟨some 3, 4⟩
          ⟨false, false, true, false, false⟩).2 = [failLog]) ∧
    (updateOracleValue ⟨some 3, 4⟩
        ⟨false, false, false, false, false⟩).1 =
      [Step.loadMeta, Step.encodePayload, Step.calcGas, Step.broadcast] :=
  ⟨(c4_gas_failure_blocks_broadcast ⟨some 3, 4⟩
      ⟨false, false, true, false, false⟩).1 rfl,
    (c4_gas_failure_blocks_broadcast ⟨some 3, 4⟩
      ⟨false, false, false, false, false⟩).2 (by decide)⟩

/-- C5: startup reconciliation of a snapshot with N items triggers
exactly N Update Submitter invocations — the batch has the snapshot's
length, position i carries the id of snapshot item i, every produced
value is below the configured bound — and the empty snapshot yields the
empty batch. -/
theorem c5_reconcile_invocations (ks : Nat → Nat)
    (items : List OracleQueueItem)
    (hk : ∀ i, ks i < 9007199254740992) :
    (reconcile ks items).length = items.length ∧
    (∀ i : Nat, ((reconcile ks items)[i]?).map OracleUpdateValue.id =
      (items[i]?).map OracleQueueItem.id) ∧
    (∀ inv ∈ reconcile ks items, inv.value < oracleBound) ∧
    reconcile ks [] = [] :=
  ⟨reconcileAux_length ks 0 items, fun i => reconcileAux_id ks 0 items i,
    reconcileAux_value ks hk 0 items, rfl⟩

/-- C5 witness: the reconciliation theorem applied to a one-item
snapshot and to the empty snapshot. -/
theorem c5_reconcile_invocations_witness :
    (reconcile (fun _ => 3) [⟨some 7, "q"⟩]).length = 1 ∧
    reconcile (fun _ => 3) [] = [] :=
  ⟨(c5_reconcile_invocations (fun _ => 3) [⟨some 7, "q"⟩]
      (fun _ => by norm_num)).1,
    (c5_reconcile_invocations (fun _ => 3) []
      (fun _ => by norm_num)).2.2.2⟩

/-- C6 counterexample: the claim says a non-integer id string makes the
whole reconciliation fail as a fatal startup condition.  It does not:
parseInt never throws, so the reader returns normally, delivering the
item with a NaN id instead of aborting. -/
theorem c6_invalid_id_counterexample :
    getOracleRequestsQueue [("abc", "0xCAFE")] =
      [{ id := none, caller := "0xCAFE" }] := by
  decide

/-- C6 (amended): the Queue Snapshot Reader parses each queue item's id
with decimal integer parsing (parseInt), but an id string that is not a
valid integer does not fail the reconciliation: parseInt yields NaN for
that item and the reader completes normally — one item per input pair,
none skipped, each id exactly parseInt of its id string. -/
theorem c6_reader_never_fails (queue : List (String × String)) :
    (getOracleRequestsQueue queue).length = queue.length ∧
    (∀ i : Nat, (getOracleRequestsQueue queue)[i]? =
      (queue[i]?).map fun p => { id := parseInt p.1, caller := p.2 }) := by
  refine ⟨by simp [getOracleRequestsQueue], fun i => ?_⟩
  simp [getOracleRequestsQueue]

/-- C7: the local-random Value Producer, invoked with the fixed bound
9999999999999, returns a non-negative integer strictly below that bound
for every possible output k of the 53-bit random source. -/
theorem c7_random_within_bounds (k : Nat) (hk : k < 9007199254740992) :
    getRandomNumber k oracleBound < oracleBound ∧
    (0 : Int) ≤ (getRandomNumber k oracleBound : Int) :=
  ⟨getRandomNumber_lt hk (by norm_num [oracleBound]),
    by exact_mod_cast Nat.zero_le _⟩

/-- C7 witness: the bound theorem applied at the concrete random-source
output 123456. -/
theorem c7_random_within_bounds_witness :
    (123456 < 9007199254740992) ∧
    getRandomNumber 123456 oracleBound < oracleBound :=
  ⟨by norm_num, (c7_random_within_bounds 123456 (by norm_num)).1⟩

/-- C8 counterexample: the claim covers every well-formed payload, but
for the id 2^64 - 1 = 18446744073709551615 the decoder's parseInt
conversion rounds the extracted id up to 2^64, so the produced
PendingRequest does not carry the encoded id. -/
theorem c8_large_id_counterexample :
    decodeNewRequest
        (0 :: (idField16 18446744073709551615 ++ List.replicate 32 9)) =
      HandlerOutcome.request 18446744073709551616 (List.replicate 32 9) ∧
    (18446744073709551616 : Nat) ≠ 18446744073709551615 := by
  decide

/-- C8 (amended): for every well-formed new-request payload whose id is
at most 2^53, the live decoder produces exactly PendingRequest with that
id and exactly the payload's caller bytes; in particular the payload of
discriminant 0, 16-byte little-endian id field 42, and 32 caller bytes
decodes to id 42 with those 32 caller bytes. -/
theorem c8_wellformed_decode :
    (∀ (id : Nat) (caller : List Nat), id ≤ 9007199254740992 →
        decodeNewRequest (0 :: (idField16 id ++ caller)) =
          HandlerOutcome.request id caller) ∧
    decodeNewRequest (0 :: (idField16 42 ++ List.replicate 32 5)) =
      HandlerOutcome.request 42 (List.replicate 32 5) :=
  ⟨fun id caller h => decode_wellformed id caller h,
    decode_wellformed 42 (List.replicate 32 5) (by norm_num)⟩

/-- C8 witness: the amended decode theorem applied at id 7 with a
one-byte caller. -/
theorem c8_wellformed_decode_witness :
    (7 ≤ 9007199254740992) ∧
    decodeNewRequest (0 :: (idField16 7 ++ [9])) =
      HandlerOutcome.request 7 [9] :=
  ⟨by norm_num, c8_wellformed_decode.1 7 [9] (by norm_num)⟩

/-- C9: the claim says a tick whose beacon fetch fails is skipped with a
logged message, does not crash the process, and the next tick fetches
again.  Evaluated at a failing tick, the callback (which has no
try/catch) logs nothing and no submission happens — the rejection
escapes the callback uncaught; the timer schedule itself is unaffected,
so the following tick runs its fetch in full. -/
theorem c9_fetch_failure_behavior :
    tickOnce ⟨true, 5, ⟨([], []), "", ""⟩⟩ =
      ([TickEvent.fetchAttempt], Except.error ()) ∧
    (runTicks [⟨true, 5, ⟨([], []), "", ""⟩⟩,
        ⟨false, 6, ⟨([], []), "", ""⟩⟩]).length = 2 ∧
    (runTicks [⟨true, 5, ⟨([], []), "", ""⟩⟩,
        ⟨false, 6, ⟨([], []), "", ""⟩⟩])[1]? =
      some ([TickEvent.fetchAttempt, TickEvent.tickLog 6,
        TickEvent.submission 6], Except.ok ()) :=
  ⟨rfl, rfl, rfl⟩

/-- C10: payloads of length at least 17 with discriminant 0 that agree
on bytes 1 through 8 decode to the same id, whatever bytes 9 through 16
(and the caller bytes) contain: only the low eight bytes of the 16-byte
id field reach readBigUInt64LE, the high eight are ignored padding. -/
theorem c10_high_id_bytes_ignored
    (b1 b2 b3 b4 b5 b6 b7 b8 : Nat) (restp restq : List Nat)
    (_hp : 8 ≤ restp.length) (_hq : 8 ≤ restq.length) :
    idOf (decodeNewRequest
        (0 :: b1 :: b2 :: b3 :: b4 :: b5 :: b6 :: b7 :: b8 :: restp)) =
      idOf (decodeNewRequest
        (0 :: b1 :: b2 :: b3 :: b4 :: b5 :: b6 :: b7 :: b8 :: restq)) :=
  rfl

/-- C10 witness: the invariance theorem applied to two payloads sharing
bytes 1..8 but with different high id-field bytes. -/
theorem c10_high_id_bytes_ignored_witness :
    (8 ≤ (List.replicate 8 3).length) ∧
    idOf (decodeNewRequest (0 :: 1 :: 2 :: 3 :: 4 :: 5 :: 6 :: 7 :: 8 ::
        List.replicate 8 3)) =
      idOf (decodeNewRequest (0 :: 1 :: 2 :: 3 :: 4 :: 5 :: 6 :: 7 :: 8 ::
        List.replicate 8 4)) :=
  ⟨by decide, c10_high_id_bytes_ignored 1 2 3 4 5 6 7 8
      (List.replicate 8 3) (List.replicate 8 4) (by decide) (by decide)⟩
